import Mathlib

/-!
# Exam-reaper and remaining-days verification

Shallow embedding of the expired-exam reaping job and the remaining-days
display logic of the students web application.

Conventions of the embedding:

* Civil datetimes are modelled as `Int` milliseconds in a *naive local*
  frame (milliseconds since 1970-01-01T00:00 of wall-clock time, no zone
  attached).  The server code compares two JavaScript `Date` values that
  both live in the system-local frame (`parseISO` produces local midnight,
  `utcToZonedTime` produces the Riyadh wall clock re-expressed in the
  local frame), so comparing naive values is faithful for any fixed-offset
  system zone.
* Asia/Riyadh is a fixed UTC+3 offset with no daylight-saving transitions.
* JavaScript `NaN` results (from an Invalid Date) are modelled as
  `Option.none`; fallible store operations are modelled with explicit
  failure flags.
-/

/-- Milliseconds per hour. -/
def msPerHour : Int := 3600000

/-- Milliseconds per day. -/
def msPerDay : Int := 86400000

/-- Leap-year test (Gregorian calendar). -/
def isLeapYear (y : Nat) : Bool :=
  y % 4 == 0 && (y % 100 != 0 || y % 400 == 0)

/-- Number of days in month `m` of year `y`. -/
def daysInMonth (y m : Nat) : Nat :=
  if m == 2 then (if isLeapYear y then 29 else 28)
  else if m == 4 || m == 6 || m == 9 || m == 11 then 30
  else 31

/-- Days from 1970-01-01 to the civil date `y-m-d` (Howard Hinnant's
`days_from_civil` algorithm, as used by calendar libraries). -/
def daysFromCivil (y m d : Nat) : Int :=
  let y' : Int := if m ≤ 2 then (y : Int) - 1 else (y : Int)
  let era : Int := (if 0 ≤ y' then y' else y' - 399).fdiv 400
  let yoe : Int := y' - era * 400
  let mp : Int := if m > 2 then (m : Int) - 3 else (m : Int) + 9
  let doy : Int := (153 * mp + 2).fdiv 5 + (d : Int) - 1
  let doe : Int := yoe * 365 + yoe.fdiv 4 - yoe.fdiv 100 + doy
  era * 146097 + doe - 719468

example : daysFromCivil 1970 1 1 = 0 := by decide
example : daysFromCivil 2024 1 1 = 19723 := by decide
example : daysFromCivil 2024 1 10 = 19732 := by decide
example : daysFromCivil 2024 1 15 = 19737 := by decide

/-- Split a character list at every occurrence of the separator `c`
(the single-separator case of `String.split`). -/
def splitOnChar (c : Char) : List Char → List (List Char)
  | [] => [[]]
  | x :: xs =>
    match splitOnChar c xs with
    | [] => if x = c then [[], [x]] else [[x]]
    | g :: gs => if x = c then [] :: g :: gs else (x :: g) :: gs

/-- Decimal value of a digit character, `none` if not a digit. -/
def charDigit (c : Char) : Option Nat :=
  if '0' ≤ c ∧ c ≤ '9' then some (c.toNat - '0'.toNat) else none

/-- Parse a non-empty all-digit character list as a natural number
(the behaviour of `String.toNat?` / JavaScript decimal parsing). -/
def digitsToNat (cs : List Char) : Option Nat :=
  if cs = [] then none
  else
    cs.foldl
      (fun acc c =>
        match acc, charDigit c with
        | some n, some d => some (n * 10 + d)
        | _, _ => none)
      (some 0)

/-- Model of date-fns `parseISO` on the calendar-date strings the
application stores (`<input type="date">` yields `""` or `"YYYY-MM-DD"`).
A valid `"YYYY-MM-DD"` string parses to local midnight of that day (naive
milliseconds); every other string yields an Invalid Date, modelled as
`none`. -/
def parseISO (s : String) : Option Int :=
  match splitOnChar '-' s.toList with
  | [ys, ms, ds] =>
    if ys.length = 4 ∧ ms.length = 2 ∧ ds.length = 2 then
      match digitsToNat ys, digitsToNat ms, digitsToNat ds with
      | some y, some m, some d =>
        if 1 ≤ m ∧ m ≤ 12 ∧ 1 ≤ d ∧ d ≤ daysInMonth y m then
          some (daysFromCivil y m d * msPerDay)
        else none
      | _, _, _ => none
    else none
  | _ => none

example : parseISO "2024-01-10" = some (19732 * msPerDay) := by decide
example : parseISO "2024-01-15" = some (19737 * msPerDay) := by decide
example : parseISO "not-a-date" = none := by decide
example : parseISO "" = none := by decide
example : parseISO "2024-02-30" = none := by decide

/-! ## Server: per-exam expiry test (`deleteExpiredExams` body)

The source (routes file, `deleteExpiredExams`):
```
const examDate = parseISO(exam.date);
const examDateTime = setHours(examDate, 10); // Set time to 10:00 AM
const currentTimeUTC = new Date();
const currentTimeSaudiArabia = utcToZonedTime(currentTimeUTC, 'Asia/Riyadh');
if (isBefore(examDateTime, currentTimeSaudiArabia)) { await storage.deleteExam(exam.id); ... }
```
`parseISO` yields local midnight of the exam date; `setHours(_, 10)` moves
it to 10:00 of the same day; `utcToZonedTime` re-expresses the current UTC
instant as the Asia/Riyadh wall clock (a fixed +03:00 shift) in the same
naive frame, so `isBefore` compares two naive local datetimes.  On an
Invalid Date (`parseISO` failed) every component is `NaN` and
`isBefore(NaN, x)` is `false`. -/

/-- Fixed offset of Asia/Riyadh: UTC+3, no daylight-saving transitions. -/
def riyadhOffsetMs : Int := 3 * msPerHour

/-- Model of date-fns-tz `utcToZonedTime(now, 'Asia/Riyadh')`: the Riyadh
wall clock of a UTC instant, as naive milliseconds. -/
def utcToZonedTimeRiyadh (nowUtcMs : Int) : Int := nowUtcMs + riyadhOffsetMs

/-- Model of date-fns `setHours(midnight, h)`: move a local-midnight value
to hour `h` of the same day. -/
def setHours (midnightMs : Int) (h : Int) : Int := midnightMs + h * msPerHour

/-- Model of date-fns `isBefore` on two (naive) datetimes. -/
def isBefore (a b : Int) : Bool := a < b

/-- The per-exam expiry test inside `deleteExpiredExams`, for a date
string and a reference UTC instant `nowUtcMs`.  When `parseISO` fails the
JavaScript comparison `isBefore(Invalid Date, _)` evaluates to `false`
(a `NaN` comparison), so the exam is reported not expired. -/
def deleteExpiredCheck (dateStr : String) (nowUtcMs : Int) : Bool :=
  match parseISO dateStr with
  | none => false
  | some examDate => isBefore (setHours examDate 10) (utcToZonedTimeRiyadh nowUtcMs)

/-- Cutoff instant according to the spec's words: the exam's calendar date
at the cutoff hour (10:00) in the fixed Asia/Riyadh timezone, as naive
Riyadh wall-clock milliseconds. -/
def specCutoff (examMidnight : Int) : Int := examMidnight + 10 * msPerHour

/-- ExpiryEvaluator as the spec words it (for refinement comparison with
`deleteExpiredCheck`): expired iff the cutoff instant is strictly before
"now" converted into the same fixed timezone. -/
def specExpired (examMidnight nowUtcMs : Int) : Bool :=
  specCutoff examMidnight < utcToZonedTimeRiyadh nowUtcMs

/-! ## Server: the sweep (`deleteExpiredExams` control flow)

The whole body — the `storage.getExams()` fetch and the per-exam loop with
its `storage.deleteExam` calls — sits inside a single `try/catch`:
a throw from the fetch yields no work, and a throw from one delete call
abandons the rest of the loop (the error is logged and swallowed).
The store is modelled explicitly: a list of exams, a flag for a failing
fetch, and a per-id flag for a failing delete.  The code reads the clock
inside the loop; the claims fix a single reference instant, which the
model passes as a parameter. -/

/-- An exam record (the fields the reaper and the UI use). -/
structure Exam where
  id : Nat
  subject : String
  date : String
  topics : List String
deriving DecidableEq

/-- The storage collaborator as the sweep sees it. -/
structure Store where
  fetchFails : Bool
  deleteFails : Nat → Bool
  exams : List Exam

/-- The per-exam loop of `deleteExpiredExams`: returns the ids whose
delete call was reached and succeeded.  A throwing delete call ends the
loop (the surrounding `try/catch` swallows the error), so nothing after it
is evaluated. -/
def sweepGo (now : Int) (df : Nat → Bool) : List Exam → List Nat
  | [] => []
  | e :: rest =>
    if deleteExpiredCheck e.date now then
      if df e.id then []
      else e.id :: sweepGo now df rest
    else sweepGo now df rest

/-- One run of `deleteExpiredExams` against a store at reference instant
`now`: the ids deleted in this run and the resulting store.  A failing
fetch is caught at the top of the `try/catch` and the run does nothing. -/
def deleteExpiredExams (now : Int) (s : Store) : List Nat × Store :=
  if s.fetchFails then ([], s)
  else
    let del := sweepGo now s.deleteFails s.exams
    (del, { s with exams := s.exams.filter (fun e => !(del.contains e.id)) })

/-! ## Client: remaining-days calculation (`ExamWeek.tsx`)

```
const calculateRemainingDays = (examDate: string) => {
  const today = new Date();
  const targetDate = parseISO(examDate);
  const days = differenceInDays(targetDate, today);
  return days;
};
```
date-fns `differenceInDays(left, right)` is *not* the calendar-day
difference: it counts full day periods, truncated toward zero —
```
const sign = compareLocalAsc(dateLeft, dateRight)
const difference = Math.abs(differenceInCalendarDays(dateLeft, dateRight))
dateLeft.setDate(dateLeft.getDate() - sign * difference)
const isLastDayNotFull = Number(compareLocalAsc(dateLeft, dateRight) === -sign)
const result = sign * (difference - isLastDayNotFull)
return result === 0 ? 0 : result
```
All operands live in the local frame (naive milliseconds here; with a
fixed offset, `setDate(getDate() - k)` is a shift by `k` whole days).
A `NaN` operand (Invalid Date) makes the result `NaN`, modelled as
`none` in `calculateRemainingDays`. -/

/-- Sign of `a - b` on local components (date-fns `compareLocalAsc`). -/
def compareLocalAsc (a b : Int) : Int :=
  if a < b then -1 else if b < a then 1 else 0

/-- Model of date-fns `differenceInCalendarDays` in a fixed-offset local
frame: difference of the local day numbers (floor division by a day). -/
def differenceInCalendarDays (a b : Int) : Int :=
  a.fdiv msPerDay - b.fdiv msPerDay

/-- Model of date-fns `differenceInDays` on two (parseable) naive local
datetimes: signed count of full day periods, truncated toward zero. -/
def differenceInDays (l r : Int) : Int :=
  let sign := compareLocalAsc l r
  let difference : Int := (differenceInCalendarDays l r).natAbs
  let lAdj := l - sign * difference * msPerDay
  let isLastDayNotFull : Int := if compareLocalAsc lAdj r = -sign then 1 else 0
  sign * (difference - isLastDayNotFull)

/-- `calculateRemainingDays` from `ExamWeek.tsx`, with "today" (the
`new Date()` instant, time-of-day included) passed explicitly as naive
local milliseconds.  `none` models the `NaN` that a non-parseable
`examDate` produces (`parseISO` → Invalid Date → `NaN` difference). -/
def calculateRemainingDays (examDate : String) (todayMs : Int) : Option Int :=
  (parseISO examDate).map (fun targetDate => differenceInDays targetDate todayMs)

/-- The remaining-days table cell of `ExamList` (`ExamWeek.tsx`):
```
const date = exam.date ? new Date(exam.date) : null;
const remainingDays = date ? calculateRemainingDays(exam.date) : null;
...
{remainingDays && remainingDays > 0 ? `${remainingDays} يوم` : 'اليوم'}
```
`date` is `null` only for an empty date string (`new Date(s)` is a truthy
object for every non-empty `s`, valid or not); `null`, `0` and `NaN` are
all falsy, so only a real positive count renders as "N يوم". -/
def renderRemainingCell (dateStr : String) (todayMs : Int) : String :=
  if dateStr = "" then "اليوم"
  else
    match calculateRemainingDays dateStr todayMs with
    | none => "اليوم"
    | some n => if 0 < n then toString n ++ " يوم" else "اليوم"

/-! ## Exam creation (`AddExamModal.tsx` and the POST /api/exams route) -/

/-- The payload `handleSubmit` would send. -/
structure ExamPayload where
  subject : String
  date : String
  topics : List String
deriving DecidableEq

/-- `topic.trim()` truthiness: a line survives iff it contains a
non-whitespace character (`trim` of a whitespace-only string is the empty,
falsy string). -/
def lineNotBlank (cs : List Char) : Bool :=
  cs.any (fun c => !c.isWhitespace)

/-- The topics textarea split of `AddExamModal.handleSubmit`:
`topics.split("\n").filter(topic => topic.trim())` — one topic per line,
whitespace-only lines dropped (the kept lines stay untrimmed). -/
def topicsArray (topics : String) : List String :=
  ((splitOnChar '\n' topics.toList).filter lineNotBlank).map
    (fun cs => String.mk cs)

/-- `handleSubmit` of `AddExamModal.tsx`: `none` models an early return
with an error toast (empty string fields are the only falsy strings, and
an all-blank topics textarea is rejected); `some` is the payload passed to
`addExam`. -/
def handleSubmit (subject date topics : String) : Option ExamPayload :=
  if subject = "" ∨ date = "" ∨ topics = "" then none
  else
    let ta := topicsArray topics
    if ta = [] then none
    else some ⟨subject, date, ta⟩

/-- Modelled from the spec: `insertExamSchema` lives in `@shared/schema`,
which is not part of the provided sources; the spec says creation is
"rejected if `subject`, `date`, or `topics` missing/empty" and that for a
persisted exam "`date` must parse as a valid calendar date". -/
def insertExamSchemaCheck (p : ExamPayload) : Bool :=
  p.subject ≠ "" && p.date ≠ "" && p.topics ≠ [] && (parseISO p.date).isSome

/-- The POST /api/exams handler: validate with the schema, persist on
success (`none` models the 400 response, nothing persisted). -/
def createExamRoute (p : ExamPayload) (newId : Nat) : Option Exam :=
  if insertExamSchemaCheck p then some ⟨newId, p.subject, p.date, p.topics⟩
  else none

/-! ## Reaper scheduling (`setInterval(deleteExpiredExams, 24 * 60 * 60 * 1000)`) -/

/-- The interval constant passed to `setInterval` in the routes file. -/
def sweepPeriodMs : Nat := 24 * 60 * 60 * 1000

/-- JavaScript `setInterval` scheduling: the `n`-th invocation
(`n = 0, 1, ...`) fires `n + 1` full periods after registration; there is
no invocation at registration time itself. -/
def reaperSweepTime (startMs n : Nat) : Nat := startMs + (n + 1) * sweepPeriodMs

/-! ## Theorems -/

/-- Claim C1: for every exam and every reference instant "now", the
per-exam test inside `deleteExpiredExams` reports the exam expired iff
the instant formed from the exam's calendar date at the 10:00 cutoff hour
in the fixed Asia/Riyadh timezone is strictly before "now" converted into
that same timezone (`specExpired`, the spec's wording of the
evaluator). -/
theorem expiry_matches_spec (d : String) (nowUtcMs examMidnight : Int)
    (hp : parseISO d = some examMidnight) :
    deleteExpiredCheck d nowUtcMs = specExpired examMidnight nowUtcMs := by
  simp [deleteExpiredCheck, hp, specExpired, specCutoff, isBefore, setHours,
    utcToZonedTimeRiyadh, riyadhOffsetMs, msPerHour]

/-- Witness for C1, on the spec's concrete scenario: exam date
`2024-01-10`; "now" = 2024-01-10T09:00+03:00 (= 06:00Z) → not expired,
"now" = 2024-01-10T11:00+03:00 (= 08:00Z) → expired,
"now" = 2024-01-09T23:00+03:00 (= Jan 9, 20:00Z) → not expired. -/
theorem expiry_matches_spec_witness :
    deleteExpiredCheck "2024-01-10" (19732 * msPerDay + 6 * msPerHour) = false
  ∧ deleteExpiredCheck "2024-01-10" (19732 * msPerDay + 8 * msPerHour) = true
  ∧ deleteExpiredCheck "2024-01-10" (19731 * msPerDay + 20 * msPerHour) = false := by
  refine ⟨?_, ?_, ?_⟩ <;>
    rw [expiry_matches_spec _ _ (19732 * msPerDay) (by decide)] <;> decide

/-- Counterexample to claim C4 as stated: at the boundary instant exactly
10:00:00 Asia/Riyadh of the exam's own date (2024-01-10T07:00Z), the code
reports *not* expired (the comparison is strict `isBefore`), while the
claim says the boundary counts as expired. -/
theorem expiry_boundary_cex :
    deleteExpiredCheck "2024-01-10" (19732 * msPerDay + 7 * msPerHour) = false := by
  decide

/-- Claim C4 (amended): for an exam dated on the current Riyadh calendar
date, the evaluation reports not expired when "now" is before *or exactly
at* 10:00 local, and expired only when "now" is strictly after 10:00
local. -/
theorem expiry_boundary (d : String) (examMidnight nowUtcMs : Int)
    (hp : parseISO d = some examMidnight)
    (_hday : (utcToZonedTimeRiyadh nowUtcMs).fdiv msPerDay
      = examMidnight.fdiv msPerDay) :
    (utcToZonedTimeRiyadh nowUtcMs ≤ specCutoff examMidnight →
      deleteExpiredCheck d nowUtcMs = false)
  ∧ (specCutoff examMidnight < utcToZonedTimeRiyadh nowUtcMs →
      deleteExpiredCheck d nowUtcMs = true) := by
  simp only [deleteExpiredCheck, hp, isBefore, setHours, specCutoff]
  constructor <;> intro h <;> simp <;> omega

/-- Witness for the amended C4: exam date 2024-01-10; at 11:00 Riyadh
(08:00Z, same calendar date) the exam is expired, at 09:00 Riyadh (06:00Z)
it is not. -/
theorem expiry_boundary_witness :
    deleteExpiredCheck "2024-01-10" (19732 * msPerDay + 8 * msPerHour) = true
  ∧ deleteExpiredCheck "2024-01-10" (19732 * msPerDay + 6 * msPerHour) = false := by
  constructor
  · exact (expiry_boundary "2024-01-10" (19732 * msPerDay) _
      (by decide) (by decide)).2 (by decide)
  · exact (expiry_boundary "2024-01-10" (19732 * msPerDay) _
      (by decide) (by decide)).1 (by decide)

/-- Claim C9: the reaper is registered with a fixed period of
86,400,000 ms (24 hours); the first sweep fires one full period after
process start, consecutive sweeps are one period apart, and no sweep
happens before 24 hours have elapsed. -/
theorem reaper_schedule :
    sweepPeriodMs = 86400000
  ∧ (∀ startMs, reaperSweepTime startMs 0 = startMs + 86400000)
  ∧ (∀ startMs n,
      reaperSweepTime startMs (n + 1) = reaperSweepTime startMs n + sweepPeriodMs)
  ∧ (∀ startMs n, startMs + 86400000 ≤ reaperSweepTime startMs n) := by
  refine ⟨rfl, fun startMs => ?_, fun startMs n => ?_, fun startMs n => ?_⟩
  all_goals simp [reaperSweepTime, sweepPeriodMs]
  all_goals omega

/-- Helper: with no failing delete, the run's deletions are exactly the
expired exams, in list order. -/
theorem sweepGo_no_failures (now : Int) (df : Nat → Bool)
    (h : ∀ i, df i = false) (l : List Exam) :
    sweepGo now df l
      = (l.filter (fun e => deleteExpiredCheck e.date now)).map Exam.id := by
  induction l with
  | nil => rfl
  | cons e rest ih =>
    simp only [sweepGo, List.filter_cons, h e.id]
    by_cases hE : deleteExpiredCheck e.date now = true
    · simp [hE, ih]
    · simp only [Bool.not_eq_true] at hE
      simp [hE, ih]

/-- Counterexample to claim C2 as stated: on a date string that fails to
parse, the per-exam evaluation does not fail with a `ParseError` — it
silently classifies the exam as not expired (date-fns yields an Invalid
Date and the strict `isBefore` comparison on `NaN` is `false`). -/
theorem unparseable_silent_cex :
    parseISO "not-a-date" = none
  ∧ deleteExpiredCheck "not-a-date" (19732 * msPerDay) = false := by
  decide

/-- Claim C2 (amended): an exam whose `date` fails to parse is silently
treated as not expired (no error is raised), and — since nothing is
thrown — the sweep of a run without store failures still evaluates every
other exam and deletes exactly the expired ones. -/
theorem unparseable_skipped (now : Int) (s : Store)
    (hf : s.fetchFails = false) (hdf : ∀ i, s.deleteFails i = false) :
    (∀ d, parseISO d = none → deleteExpiredCheck d now = false)
  ∧ (deleteExpiredExams now s).1
      = (s.exams.filter (fun e => deleteExpiredCheck e.date now)).map Exam.id := by
  constructor
  · intro d h
    simp [deleteExpiredCheck, h]
  · simp only [deleteExpiredExams, hf, Bool.false_eq_true, if_false]
    exact sweepGo_no_failures now s.deleteFails hdf s.exams

/-- Witness for the amended C2, on the spec's isolation scenario: five
exams, the third with an unparseable date; at "now" = 2024-01-10T00:00Z
exams 1 and 2 are expired and deleted, exam 3 is skipped, exams 4 and 5
are kept. -/
theorem unparseable_skipped_witness :
    (deleteExpiredExams (19732 * msPerDay)
      { fetchFails := false, deleteFails := fun _ => false,
        exams := [⟨1, "math", "2024-01-01", ["t1"]⟩,
                  ⟨2, "physics", "2024-01-05", ["t2"]⟩,
                  ⟨3, "chemistry", "bad-date", ["t3"]⟩,
                  ⟨4, "biology", "2024-02-01", ["t4"]⟩,
                  ⟨5, "english", "2024-03-01", ["t5"]⟩] }).1 = [1, 2] := by
  rw [(unparseable_skipped (19732 * msPerDay) _ rfl (fun i => rfl)).2]
  decide

/-- Helper: when the loop reaches an expired exam whose delete call
throws, the run ends there — the deletions are exactly the expired exams
of the preceding prefix, and nothing after the failing exam is touched. -/
theorem sweepGo_abort (now : Int) (df : Nat → Bool) (e : Exam) (ys : List Exam)
    (he : deleteExpiredCheck e.date now = true) (hd : df e.id = true) :
    ∀ xs : List Exam,
      (∀ x ∈ xs, deleteExpiredCheck x.date now = true → df x.id = false) →
      sweepGo now df (xs ++ e :: ys)
        = (xs.filter (fun x => deleteExpiredCheck x.date now)).map Exam.id := by
  intro xs
  induction xs with
  | nil =>
    intro _
    simp [sweepGo, he, hd]
  | cons x rest ih =>
    intro h
    simp only [List.cons_append, sweepGo, List.filter_cons, List.append_eq]
    by_cases hx : deleteExpiredCheck x.date now = true
    · have hfx : df x.id = false := h x (List.mem_cons_self x rest) hx
      simp only [hx, if_true, hfx, Bool.false_eq_true, if_false, List.map_cons]
      rw [ih (fun y hy => h y (List.mem_cons_of_mem x hy))]
    · simp only [Bool.not_eq_true] at hx
      simp only [hx, Bool.false_eq_true, if_false]
      rw [ih (fun y hy => h y (List.mem_cons_of_mem x hy))]

/-- Counterexample to claim C3 as stated: two exams, both expired at
"now" = 2024-01-10T00:00Z; the delete call for exam 1 throws, and
although exam 2 is expired and its own delete would succeed, the run
deletes nothing — the failure was not isolated to exam 1. -/
theorem delete_failure_cex :
    (deleteExpiredExams (19732 * msPerDay)
      { fetchFails := false, deleteFails := fun i => i == 1,
        exams := [⟨1, "math", "2024-01-01", ["t1"]⟩,
                  ⟨2, "physics", "2024-01-02", ["t2"]⟩] }).1 = []
  ∧ deleteExpiredCheck "2024-01-02" (19732 * msPerDay) = true
  ∧ (fun i => i == 1) 2 = false := by
  decide

/-- Claim C3 (amended): in a single sweep run, a failure raised by the
delete call for one exam is caught and logged only at the run level —
it aborts evaluation of all subsequent exams of that run, so the run's
deletions are exactly the expired exams preceding the first expired exam
whose delete fails.  (A failure of the initial list fetch likewise aborts
the whole run.) -/
theorem delete_failure_aborts (now : Int) (s : Store) (xs ys : List Exam)
    (e : Exam) (hs : s.exams = xs ++ e :: ys) (hf : s.fetchFails = false)
    (he : deleteExpiredCheck e.date now = true) (hd : s.deleteFails e.id = true)
    (hxs : ∀ x ∈ xs, deleteExpiredCheck x.date now = true →
      s.deleteFails x.id = false) :
    (deleteExpiredExams now s).1
      = (xs.filter (fun x => deleteExpiredCheck x.date now)).map Exam.id := by
  simp only [deleteExpiredExams, hf, Bool.false_eq_true, if_false, hs]
  exact sweepGo_abort now s.deleteFails e ys he hd xs hxs

/-- Witness for the amended C3: with the failing exam first in the list,
the run deletes nothing at all. -/
theorem delete_failure_aborts_witness :
    (deleteExpiredExams (19732 * msPerDay)
      { fetchFails := false, deleteFails := fun i => i == 1,
        exams := [⟨1, "math", "2024-01-01", ["t1"]⟩,
                  ⟨2, "physics", "2024-01-02", ["t2"]⟩] }).1 = [] := by
  have h := delete_failure_aborts (19732 * msPerDay)
    { fetchFails := false, deleteFails := fun i => i == 1,
      exams := [⟨1, "math", "2024-01-01", ["t1"]⟩,
                ⟨2, "physics", "2024-01-02", ["t2"]⟩] }
    [] [⟨2, "physics", "2024-01-02", ["t2"]⟩] ⟨1, "math", "2024-01-01", ["t1"]⟩
    rfl rfl (by decide) (by decide) (by intro x hx; cases hx)
  simpa using h

/-- Helper: after removing a run's deleted ids (together with any further
ids `R` whose delete would also succeed), a second pass deletes nothing —
every expired exam either was deleted or sits at/behind the first
expired exam with a throwing delete, which aborts the second pass too. -/
theorem sweepGo_filter_empty (now : Int) (df : Nat → Bool) :
    ∀ (l : List Exam) (R : List Nat), (∀ i ∈ R, df i = false) →
      sweepGo now df
        (l.filter (fun e =>
          !(R.contains e.id) && !((sweepGo now df l).contains e.id))) = [] := by
  intro l
  induction l with
  | nil => intro R _; rfl
  | cons e rest ih =>
    intro R hR
    by_cases hE : deleteExpiredCheck e.date now = true
    · by_cases hF : df e.id = true
      · have hD : sweepGo now df (e :: rest) = [] := by
          simp [sweepGo, hE, hF]
        have hRe : R.contains e.id = false := by
          cases hc : R.contains e.id
          · rfl
          · have hm : e.id ∈ R := by simpa using hc
            exact absurd (hR e.id hm) (by simp [hF])
        rw [hD]
        simp only [List.filter_cons, hRe, List.contains_nil, Bool.not_false,
          Bool.and_self, if_true]
        simp [sweepGo, hE, hF]
      · have hF' : df e.id = false := by simpa using hF
        have hD : sweepGo now df (e :: rest)
            = e.id :: sweepGo now df rest := by
          simp [sweepGo, hE, hF']
        rw [hD]
        have hpe : (!(R.contains e.id)
            && !((e.id :: sweepGo now df rest).contains e.id)) = false := by
          simp [List.contains_cons]
        rw [List.filter_cons_of_neg (by simp [hpe])]
        have hcong : rest.filter (fun x =>
              !(R.contains x.id) && !((e.id :: sweepGo now df rest).contains x.id))
            = rest.filter (fun x =>
              !((e.id :: R).contains x.id) && !((sweepGo now df rest).contains x.id)) := by
          apply List.filter_congr
          intro x _
          cases h1 : (x.id == e.id) <;>
            cases h2 : R.contains x.id <;>
            cases h3 : (sweepGo now df rest).contains x.id <;>
            simp only [List.contains_cons, h1, h2, h3] <;> rfl
        rw [hcong]
        exact ih (e.id :: R) (by
          intro i hi
          rcases List.mem_cons.mp hi with h | h
          · simpa [h] using hF'
          · exact hR i h)
    · have hE' : deleteExpiredCheck e.date now = false := by simpa using hE
      have hD : sweepGo now df (e :: rest) = sweepGo now df rest := by
        simp [sweepGo, hE']
      rw [hD, List.filter_cons]
      by_cases hpe : (!(R.contains e.id)
          && !((sweepGo now df rest).contains e.id)) = true
      · simp only [hpe, if_true]
        rw [sweepGo]
        simp only [hE', Bool.false_eq_true, if_false]
        exact ih R hR
      · simp only [Bool.not_eq_true] at hpe
        simp only [hpe, Bool.false_eq_true, if_false]
        exact ih R hR

/-- Claim C5: the sweep is idempotent — for every store state and fixed
"now", running the sweep once and then again (nothing added in between)
yields an empty deletion set on the second run and leaves the store state
unchanged. -/
theorem sweep_idempotent (now : Int) (s : Store) :
    (deleteExpiredExams now (deleteExpiredExams now s).2).1 = []
  ∧ (deleteExpiredExams now (deleteExpiredExams now s).2).2
      = (deleteExpiredExams now s).2 := by
  by_cases hf : s.fetchFails
  · simp [deleteExpiredExams, hf]
  · have hf' : s.fetchFails = false := by simpa using hf
    have key := sweepGo_filter_empty now s.deleteFails s.exams []
      (by intro i hi; cases hi)
    have hcong : s.exams.filter (fun e =>
          !((List.nil : List Nat).contains e.id)
          && !((sweepGo now s.deleteFails s.exams).contains e.id))
        = s.exams.filter (fun e =>
          !((sweepGo now s.deleteFails s.exams).contains e.id)) := by
      apply List.filter_congr
      intro x _
      simp [List.contains_nil]
    rw [hcong] at key
    have hsecond : (deleteExpiredExams now (deleteExpiredExams now s).2).1 = [] := by
      simp only [deleteExpiredExams, hf', Bool.false_eq_true, if_false]
      exact key
    refine ⟨hsecond, ?_⟩
    simp only [deleteExpiredExams, hf', Bool.false_eq_true, if_false] at hsecond ⊢
    rw [hsecond]
    congr 1
    apply List.filter_eq_self.mpr
    intro x _
    simp [List.contains_nil]

/-- Counterexample to claim C6 as stated: with exam date `2024-01-15` and
"today" = 2024-01-10 at 12:00 local, `calculateRemainingDays` returns 4,
not the calendar-day difference 5 — date-fns `differenceInDays` counts
full day periods from today's instant, not calendar days. -/
theorem remaining_days_cex :
    calculateRemainingDays "2024-01-15" (19732 * msPerDay + 12 * msPerHour)
      = some 4 := by
  decide

/-- Claim C6 (amended): `calculateRemainingDays` returns the number of
full day periods between "today"'s instant and the target date's
midnight: for exam date `2024-01-15` and today on the calendar date
2024-01-10 it returns 5 only when "today" is exactly midnight, and 4 for
every later time-of-day; for exam date `2024-01-10` on the same date it
returns 0 for every time-of-day. -/
theorem remaining_days_scenarios (t : Int) (h0 : 0 ≤ t) (h1 : t < msPerDay) :
    calculateRemainingDays "2024-01-15" (19732 * msPerDay + t)
      = some (if t = 0 then 5 else 4)
  ∧ calculateRemainingDays "2024-01-10" (19732 * msPerDay + t) = some 0 := by
  have hp15 : parseISO "2024-01-15" = some (19737 * msPerDay) := by decide
  have hp10 : parseISO "2024-01-10" = some (19732 * msPerDay) := by decide
  have hfd : ∀ a : Int, a.fdiv 86400000 = a / 86400000 :=
    fun a => Int.fdiv_eq_ediv a (by norm_num)
  have h1' : t < 86400000 := by simpa [msPerDay] using h1
  constructor
  · simp only [calculateRemainingDays, hp15, Option.map_some']
    congr 1
    simp only [differenceInDays, differenceInCalendarDays, compareLocalAsc,
      msPerDay, hfd]
    split_ifs <;> first | contradiction | omega
  · simp only [calculateRemainingDays, hp10, Option.map_some']
    congr 1
    simp only [differenceInDays, differenceInCalendarDays, compareLocalAsc,
      msPerDay, hfd]
    split_ifs <;> first | contradiction | omega

/-- Witness for the amended C6, at "today" = 2024-01-10, 06:00 local. -/
theorem remaining_days_scenarios_witness :
    calculateRemainingDays "2024-01-15" (19732 * msPerDay + 6 * msPerHour)
      = some (if (6 * msPerHour : Int) = 0 then 5 else 4)
  ∧ calculateRemainingDays "2024-01-10" (19732 * msPerDay + 6 * msPerHour)
      = some 0 :=
  remaining_days_scenarios (6 * msPerHour) (by decide) (by decide)

/-- Counterexample to claim C7 as stated: for an unparseable date the
calculator does return a distinguished value (`NaN`, modelled `none`),
but the presentation layer renders it as `'اليوم'` — exactly the "today"
rendering (shown here for an exam dated today) — not as a separate
placeholder. -/
theorem unknown_renders_today_cex :
    calculateRemainingDays "not-a-real-date" 0 = none
  ∧ renderRemainingCell "not-a-real-date" 0 = "اليوم"
  ∧ renderRemainingCell "2024-01-10" (19732 * msPerDay + 6 * msPerHour)
      = "اليوم" := by
  decide

/-- Claim C7 (amended): `calculateRemainingDays` never raises — for every
input string it returns a value, and for an unparseable date that value
is `NaN` (modelled `none`); the remaining-days cell, however, renders
this unknown value as `'اليوم'`, indistinguishable from the "today"
rendering. -/
theorem unknown_renders_today (d : String) (todayMs : Int)
    (h : parseISO d = none) :
    calculateRemainingDays d todayMs = none
  ∧ renderRemainingCell d todayMs = "اليوم" := by
  constructor
  · simp [calculateRemainingDays, h]
  · by_cases hd : d = ""
    · simp [renderRemainingCell, hd]
    · simp [renderRemainingCell, hd, calculateRemainingDays, h]

/-- Witness for the amended C7, on an out-of-range calendar date. -/
theorem unknown_renders_today_witness :
    calculateRemainingDays "2024-13-40" 0 = none
  ∧ renderRemainingCell "2024-13-40" 0 = "اليوم" :=
  unknown_renders_today "2024-13-40" 0 (by decide)

/-- Claim C10: the remaining-days cell shows "N يوم" exactly when the
computed day difference is a number strictly greater than zero; for
zero, negative, or the `NaN` of an unparseable date it shows `'اليوم'`,
so a negative or invalid count is never displayed. -/
theorem remaining_cell_rendering (d : String) (todayMs : Int) :
    (∀ n : Int, calculateRemainingDays d todayMs = some n → 0 < n →
      renderRemainingCell d todayMs = toString n ++ " يوم")
  ∧ ((calculateRemainingDays d todayMs = none
      ∨ ∃ n : Int, calculateRemainingDays d todayMs = some n ∧ n ≤ 0) →
      renderRemainingCell d todayMs = "اليوم") := by
  constructor
  · intro n hn hpos
    by_cases hd : d = ""
    · rw [hd] at hn
      have hnone : calculateRemainingDays "" todayMs = none := by
        simp [calculateRemainingDays, show parseISO "" = none from rfl]
      rw [hnone] at hn
      cases hn
    · simp [renderRemainingCell, hd, hn, hpos]
  · intro h
    by_cases hd : d = ""
    · simp [renderRemainingCell, hd]
    · rcases h with h | ⟨n, hn, hle⟩
      · simp [renderRemainingCell, hd, h]
      · simp [renderRemainingCell, hd, hn, Int.not_lt.mpr hle]

/-- Witness for C10: a positive count renders as "N يوم"; a past exam
renders as `'اليوم'` (never a negative number). -/
theorem remaining_cell_rendering_witness :
    renderRemainingCell "2024-01-15" (19732 * msPerDay)
      = toString (5 : Int) ++ " يوم"
  ∧ renderRemainingCell "2024-01-01" (19732 * msPerDay) = "اليوم" := by
  constructor
  · exact (remaining_cell_rendering "2024-01-15" (19732 * msPerDay)).1 5
      (by decide) (by decide)
  · exact (remaining_cell_rendering "2024-01-01" (19732 * msPerDay)).2
      (Or.inr ⟨-9, by decide, by decide⟩)

/-- Claim C8: exam creation is rejected — nothing persisted, an error
reported — whenever `subject`, `date`, or `topics` is missing or empty
(server schema, modelled from the spec, and the client form handler);
consequently every persisted exam has a non-empty `topics` list and a
`date` that parses as a valid calendar date. -/
theorem exam_creation_validated :
    (∀ (p : ExamPayload) (newId : Nat),
      p.subject = "" ∨ p.date = "" ∨ p.topics = [] →
        createExamRoute p newId = none)
  ∧ (∀ (p : ExamPayload) (newId : Nat), parseISO p.date = none →
      createExamRoute p newId = none)
  ∧ (∀ (p : ExamPayload) (newId : Nat) (e : Exam),
      createExamRoute p newId = some e →
        e.topics ≠ [] ∧ (parseISO e.date).isSome = true)
  ∧ (∀ subject date topics : String,
      subject = "" ∨ date = "" ∨ topics = "" ∨ topicsArray topics = [] →
        handleSubmit subject date topics = none) := by
  refine ⟨?_, ?_, ?_, ?_⟩
  · intro p newId h
    rcases h with h | h | h <;>
      simp [createExamRoute, insertExamSchemaCheck, h]
  · intro p newId h
    simp [createExamRoute, insertExamSchemaCheck, h, Option.isSome]
  · intro p newId e h
    by_cases hc : insertExamSchemaCheck p = true
    · simp only [createExamRoute, hc, if_true, Option.some.injEq] at h
      subst h
      simp only [insertExamSchemaCheck, Bool.and_eq_true, ne_eq,
        decide_eq_true_eq] at hc
      exact ⟨by simpa using hc.1.2, hc.2⟩
    · simp [createExamRoute, hc] at h
  · intro subject date topics h
    rcases h with h | h | h | h <;> simp [handleSubmit, h]

/-- Witness for C8: an empty date is rejected server-side; a valid
payload persists with its non-empty topics and parseable date; a
whitespace-only topics textarea is rejected client-side. -/
theorem exam_creation_validated_witness :
    createExamRoute ⟨"math", "", ["a"]⟩ 7 = none
  ∧ createExamRoute ⟨"math", "2024-13-40", ["a"]⟩ 7 = none
  ∧ ((⟨7, "math", "2024-05-01", ["a"]⟩ : Exam).topics ≠ []
      ∧ (parseISO ("2024-05-01" : String)).isSome = true)
  ∧ handleSubmit "math" "2024-05-01" " " = none := by
  refine ⟨?_, ?_, ?_, ?_⟩
  · exact exam_creation_validated.1 ⟨"math", "", ["a"]⟩ 7 (Or.inr (Or.inl rfl))
  · exact exam_creation_validated.2.1 ⟨"math", "2024-13-40", ["a"]⟩ 7 (by decide)
  · exact exam_creation_validated.2.2.1 ⟨"math", "2024-05-01", ["a"]⟩ 7
      ⟨7, "math", "2024-05-01", ["a"]⟩ (by decide)
  · exact exam_creation_validated.2.2.2 "math" "2024-05-01" " "
      (Or.inr (Or.inr (Or.inr (by decide))))
